import Mathlib

/-!
Shallow embedding of `include/Try/Try.hpp`, a single-header unit-testing
harness. The diagnostic sink (`std::ostream`) is modelled as the list of
completed lines written so far, one list element per `std::endl`. A test
body is modelled by its observable outcome: it either returns normally
(carrying a return value that the runner discards) or throws a C++
exception object. Exception objects carry their dynamic type and, for
types derived from `std::exception`, the `what()` message.
-/

/-- The C++ types that appear as thrown objects or in `catch` clauses in
the modelled universe. `std::runtime_error` and `std::logic_error`
publicly derive from `std::exception`; `int` stands for a non-class,
non-`std::exception` throwable. -/
inductive CppType where
  | stdException
  | runtimeError
  | logicError
  | intType
deriving DecidableEq, Repr

/-- `derivesFrom t u` holds when a thrown object of dynamic type `t` is
caught by `catch (const u&)` in C++: `t` is `u` itself or publicly
derived from `u`. -/
def derivesFrom (t u : CppType) : Bool :=
  t == u ||
    (u == CppType.stdException &&
      (t == CppType.runtimeError || t == CppType.logicError))

/-- `typeid(...).name()` for each modelled type (implementation-defined
in C++; these are the Itanium-ABI mangled names GCC and Clang produce). -/
def typeidName : CppType → String
  | CppType.stdException => "St9exception"
  | CppType.runtimeError => "St13runtime_error"
  | CppType.logicError => "St11logic_error"
  | CppType.intType => "i"

/-- A thrown C++ object: its dynamic type and, when the type derives from
`std::exception`, the `what()` message (ignored otherwise). -/
structure CppExc where
  ty : CppType
  msg : String
deriving DecidableEq, Repr

/-- Whether the thrown object is caught by `catch (const std::exception&)`. -/
def CppExc.isStd (e : CppExc) : Bool := derivesFrom e.ty CppType.stdException

/-- Observable outcome of invoking a test body: normal completion with a
(discarded) return value, or a thrown object escaping the body. -/
inductive Outcome where
  | normal (ret : Int)
  | thrown (e : CppExc)
deriving DecidableEq, Repr

/-- An argument value as the Value Renderer sees it: either its type is
streamable (the probe `detail::is_streamable` succeeds) and it has a
textual form, or it is not streamable, or it is the `nullptr` literal of
type `std::nullptr_t`. Each case carries the `typeid` name shown in the
rendering. -/
inductive Value where
  | streamable (text : String) (tyName : String)
  | nonStreamable (tyName : String)
  | nullptrVal
deriving DecidableEq, Repr

/-- `detail::stream` (Try.hpp lines 58-70): the three overloads chosen by
`is_streamable` SFINAE, with the dedicated non-template overload for
`std::nullptr_t`. The non-streamable branch reproduces the source string
literally, stray apostrophe included. -/
def stream : Value → String
  | Value.streamable t ty => "\"" ++ t ++ "\" (" ++ ty ++ ")"
  | Value.nonStreamable ty => "[Can't print'] (" ++ ty ++ ")"
  | Value.nullptrVal => "\"nullptr\" (nullptr_t)"

/-- `detail::streamArgs` (Try.hpp lines 72-79): one rendered line per
argument, and the zero-argument base case writes a lone `std::endl`,
i.e. a blank line after the last argument. -/
def streamArgs : List Value → List String
  | [] => [""]
  | v :: rest => stream v :: streamArgs rest

/-- `Try::SourceContext` (Try.hpp lines 19-29). -/
structure SourceContext where
  file : String
  line : Nat
deriving DecidableEq, Repr

/-- `operator<<(std::ostream&, const SourceContext&)` (Try.hpp lines 33-36). -/
def scShow (sc : SourceContext) : String :=
  sc.file ++ ", line " ++ Nat.repr sc.line

/-- State of a `Try::Try` runner: the lines written to its diagnostic
sink so far, and the two counters `mSuccesCount` / `mFailCount`
(source spelling kept). -/
structure Try where
  out : List String
  succesCount : Nat
  failCount : Nat
deriving DecidableEq, Repr

/-- A freshly constructed runner: zero counters, nothing written yet. -/
def Try.init : Try := ⟨[], 0, 0⟩

/-- The message line the failure path writes: `Message: "<what()>"` when
the thrown object is caught as `const std::exception&`, otherwise the
`catch (...)` line `(no message)` (Try.hpp lines 116-123). -/
def msgLine (e : CppExc) : String :=
  if e.isStd then "Message: \"" ++ e.msg ++ "\"" else "(no message)"

/-- `Try::operator()` (Try.hpp lines 110-135). `result` is the outcome of
`test(args...)`; `args` are the arguments, kept for logging. Returns the
updated runner state and the boolean result. -/
def Try.run (t : Try) (sc : SourceContext) (result : Outcome)
    (args : List Value) : Try × Bool :=
  match result with
  | Outcome.normal _ => ({ t with succesCount := t.succesCount + 1 }, true)
  | Outcome.thrown e =>
      let headerLines := ["Test failed: " ++ scShow sc, msgLine e]
      let argLines :=
        if args.isEmpty then ["(no arguments)", ""]
        else "Arguments:" :: streamArgs args
      ({ t with out := t.out ++ headerLines ++ argLines,
                failCount := t.failCount + 1 }, false)

/-- Outcome of evaluating a comparison expression such as `a == b` inside
an assertion helper's lambda: the comparison returned a boolean, or the
comparison operator itself threw. -/
inductive CmpResult where
  | ok (holds : Bool)
  | thrown (e : CppExc)
deriving DecidableEq, Repr

/-- The body `Try::equal` constructs (Try.hpp lines 144-148): if `a == b`
does not hold, throw `std::runtime_error{"Arguments are not equal!"}`;
a throw from `==` itself escapes the lambda. -/
def equalBody (cmp : CmpResult) : Outcome :=
  match cmp with
  | CmpResult.ok true => Outcome.normal 0
  | CmpResult.ok false =>
      Outcome.thrown ⟨CppType.runtimeError, "Arguments are not equal!"⟩
  | CmpResult.thrown e => Outcome.thrown e

/-- `Try::equal` (Try.hpp lines 142-149): runs `equalBody` through
`operator()` with the two operands passed through as logged arguments. -/
def Try.equal (t : Try) (sc : SourceContext) (cmp : CmpResult)
    (a b : Value) : Try × Bool :=
  Try.run t sc (equalBody cmp) [a, b]

/-- The body `Try::notequal` constructs (Try.hpp lines 158-162). -/
def notequalBody (cmp : CmpResult) : Outcome :=
  match cmp with
  | CmpResult.ok true => Outcome.normal 0
  | CmpResult.ok false =>
      Outcome.thrown ⟨CppType.runtimeError, "Arguments are equal!"⟩
  | CmpResult.thrown e => Outcome.thrown e

/-- `Try::notequal` (Try.hpp lines 156-163). -/
def Try.notequal (t : Try) (sc : SourceContext) (cmp : CmpResult)
    (a b : Value) : Try × Bool :=
  Try.run t sc (notequalBody cmp) [a, b]

/-- The body `Try::less` constructs (Try.hpp lines 172-176). -/
def lessBody (cmp : CmpResult) : Outcome :=
  match cmp with
  | CmpResult.ok true => Outcome.normal 0
  | CmpResult.ok false =>
      Outcome.thrown
        ⟨CppType.runtimeError, "The first argument is not less than the second!"⟩
  | CmpResult.thrown e => Outcome.thrown e

/-- `Try::less` (Try.hpp lines 170-177). -/
def Try.less (t : Try) (sc : SourceContext) (cmp : CmpResult)
    (a b : Value) : Try × Bool :=
  Try.run t sc (lessBody cmp) [a, b]

/-- The body `Try::lequal` constructs (Try.hpp lines 186-190). -/
def lequalBody (cmp : CmpResult) : Outcome :=
  match cmp with
  | CmpResult.ok true => Outcome.normal 0
  | CmpResult.ok false =>
      Outcome.thrown
        ⟨CppType.runtimeError,
          "The first argument is not less than or equal to the second!"⟩
  | CmpResult.thrown e => Outcome.thrown e

/-- `Try::lequal` (Try.hpp lines 184-191). -/
def Try.lequal (t : Try) (sc : SourceContext) (cmp : CmpResult)
    (a b : Value) : Try × Bool :=
  Try.run t sc (lequalBody cmp) [a, b]

/-- The `what()` text of the wrong-exception report built at Try.hpp
lines 210-212. -/
def wrongExcMsg (e : CppExc) : String :=
  "Test throws a wrong exception (" ++ typeidName e.ty ++ "): " ++ e.msg

/-- The wrapper lambda `Try::throws` constructs (Try.hpp lines 202-219):
run the test; a throw caught by `catch (const T&)` makes the wrapper
return normally; a throw caught by `catch (const std::exception&)` is
rethrown as the wrong-exception `std::runtime_error`; any other throw as
the wrong-non-exception one; and if the test did not throw the wrapper
throws `std::runtime_error{"Test did not throw!"}` after the try block. -/
def throwsBody (expected : CppType) (result : Outcome) : Outcome :=
  match result with
  | Outcome.normal _ =>
      Outcome.thrown ⟨CppType.runtimeError, "Test did not throw!"⟩
  | Outcome.thrown e =>
      if derivesFrom e.ty expected then Outcome.normal 0
      else if e.isStd then
        Outcome.thrown ⟨CppType.runtimeError, wrongExcMsg e⟩
      else
        Outcome.thrown ⟨CppType.runtimeError, "Test throws a wrong non-exception!"⟩

/-- `Try::throws` (Try.hpp lines 200-220): runs the wrapper body through
`operator()` with the same arguments passed through for logging. -/
def Try.throws (t : Try) (sc : SourceContext) (expected : CppType)
    (result : Outcome) (args : List Value) : Try × Bool :=
  Try.run t sc (throwsBody expected result) args

/-- One runner invocation of a sequence: its source context, the body's
outcome, and the logged arguments. -/
structure Call where
  sc : SourceContext
  result : Outcome
  args : List Value

/-- A sequence of `operator()` invocations on a runner, left to right. -/
def Try.runSeq (t : Try) (calls : List Call) : Try :=
  calls.foldl (fun s c => (Try.run s c.sc c.result c.args).1) t

/-- An `int` argument as the renderer sees it: `int` is streamable and
`typeid(int).name()` is `i`. -/
def intValue (n : Int) : Value := Value.streamable (Int.repr n) "i"

/-- `Try::equal` instantiated at two `int` operands: the comparison
`a == b` cannot throw and returns the boolean equality. -/
def Try.equalInt (t : Try) (sc : SourceContext) (a b : Int) : Try × Bool :=
  Try.equal t sc (CmpResult.ok (a == b)) (intValue a) (intValue b)

/-! ## General lemmas about the failure path and counters -/

/-- `detail::streamArgs` writes one rendered line per argument followed by
the blank line its zero-argument base case emits. -/
theorem streamArgs_eq_map (l : List Value) :
    streamArgs l = l.map stream ++ [""] := by
  induction l with
  | nil => rfl
  | cons v vs ih => simp [streamArgs, ih]

/-- Full shape of the diagnostic lines a failing invocation appends. -/
theorem run_out_thrown (t : Try) (sc : SourceContext) (e : CppExc)
    (args : List Value) :
    (Try.run t sc (Outcome.thrown e) args).1.out =
      t.out ++ (("Test failed: " ++ scShow sc) :: msgLine e ::
        (if args.isEmpty then ["(no arguments)", ""]
         else "Arguments:" :: streamArgs args)) := by
  simp [Try.run]

/-- Each invocation bumps exactly one of the two counters by one. -/
theorem run_counter_step (t : Try) (sc : SourceContext) (res : Outcome)
    (args : List Value) :
    ((Try.run t sc res args).1.succesCount = t.succesCount + 1 ∧
       (Try.run t sc res args).1.failCount = t.failCount) ∨
    ((Try.run t sc res args).1.failCount = t.failCount + 1 ∧
       (Try.run t sc res args).1.succesCount = t.succesCount) := by
  cases res with
  | normal r => exact Or.inl ⟨rfl, rfl⟩
  | thrown e => exact Or.inr ⟨rfl, rfl⟩

/-- The counter sum grows by exactly the number of invocations. -/
theorem runSeq_counter_sum (calls : List Call) : ∀ t : Try,
    (Try.runSeq t calls).succesCount + (Try.runSeq t calls).failCount =
      t.succesCount + t.failCount + calls.length := by
  induction calls with
  | nil => intro t; simp [Try.runSeq]
  | cons c cs ih =>
      intro t
      have h := ih (Try.run t c.sc c.result c.args).1
      have hstep := run_counter_step t c.sc c.result c.args
      simp only [Try.runSeq, List.foldl_cons, List.length_cons] at h ⊢
      rcases hstep with ⟨h1, h2⟩ | ⟨h1, h2⟩ <;> omega

/-- Both counters are monotonically non-decreasing along a sequence. -/
theorem runSeq_counter_mono (calls : List Call) : ∀ t : Try,
    t.succesCount ≤ (Try.runSeq t calls).succesCount ∧
    t.failCount ≤ (Try.runSeq t calls).failCount := by
  induction calls with
  | nil => intro t; exact ⟨Nat.le_refl _, Nat.le_refl _⟩
  | cons c cs ih =>
      intro t
      have h := ih (Try.run t c.sc c.result c.args).1
      have hstep := run_counter_step t c.sc c.result c.args
      simp only [Try.runSeq, List.foldl_cons] at h ⊢
      rcases hstep with ⟨h1, h2⟩ | ⟨h1, h2⟩ <;>
        exact ⟨by omega, by omega⟩

/-! ## Claim theorems -/

/-- C1: whatever the body throws — a `std::exception` or any opaque
non-exception kind — `Try::operator()` catches it, writes a failure
report (beginning with the `Test failed:` line) to the sink, increments
`mFailCount`, and returns `false`; no failure propagates past `run`. -/
theorem run_contains_every_failure (t : Try) (sc : SourceContext)
    (e : CppExc) (args : List Value) :
    (Try.run t sc (Outcome.thrown e) args).2 = false ∧
    (Try.run t sc (Outcome.thrown e) args).1.failCount = t.failCount + 1 ∧
    ∃ report : List String,
      (Try.run t sc (Outcome.thrown e) args).1.out = t.out ++ report ∧
      report.head? = some ("Test failed: " ++ scShow sc) := by
  refine ⟨rfl, rfl,
    ("Test failed: " ++ scShow sc) :: msgLine e ::
      (if args.isEmpty then ["(no arguments)", ""]
       else "Arguments:" :: streamArgs args),
    run_out_thrown t sc e args, rfl⟩

/-- C3: a body that completes without throwing makes `run` increment
`mSuccesCount` and return `true`, and the body's return value is
discarded: the result of `run` does not depend on it. -/
theorem run_success_ignores_return (t : Try) (sc : SourceContext)
    (args : List Value) (r r2 : Int) :
    (Try.run t sc (Outcome.normal r) args).2 = true ∧
    (Try.run t sc (Outcome.normal r) args).1.succesCount =
      t.succesCount + 1 ∧
    Try.run t sc (Outcome.normal r) args =
      Try.run t sc (Outcome.normal r2) args :=
  ⟨rfl, rfl, rfl⟩

/-- C10: a succeeding invocation writes nothing to the sink, leaves
`mFailCount` unchanged, and only bumps `mSuccesCount` and returns
`true`. -/
theorem run_success_frame (t : Try) (sc : SourceContext) (r : Int)
    (args : List Value) :
    (Try.run t sc (Outcome.normal r) args).1.out = t.out ∧
    (Try.run t sc (Outcome.normal r) args).1.failCount = t.failCount ∧
    Try.run t sc (Outcome.normal r) args =
      ({ t with succesCount := t.succesCount + 1 }, true) :=
  ⟨rfl, rfl, rfl⟩

/-- C2: on a fresh runner, `succesCount + failCount` equals the number of
invocations; both counters are monotonically non-decreasing along any
sequence; and each single invocation increments exactly one of the two
counters by exactly one. -/
theorem counters_partition_invocations (calls : List Call) (t : Try)
    (sc : SourceContext) (res : Outcome) (args : List Value) :
    ((Try.runSeq Try.init calls).succesCount +
        (Try.runSeq Try.init calls).failCount = calls.length) ∧
    (t.succesCount ≤ (Try.runSeq t calls).succesCount ∧
      t.failCount ≤ (Try.runSeq t calls).failCount) ∧
    (((Try.run t sc res args).1.succesCount = t.succesCount + 1 ∧
        (Try.run t sc res args).1.failCount = t.failCount) ∨
      ((Try.run t sc res args).1.failCount = t.failCount + 1 ∧
        (Try.run t sc res args).1.succesCount = t.succesCount)) := by
  refine ⟨?_, runSeq_counter_mono calls t, run_counter_step t sc res args⟩
  have h := runSeq_counter_sum calls Try.init
  simpa [Try.init] using h

/-- C7: a failing invocation writes, first, the line
`Test failed: <file>, line <line>` (the `SourceContext` rendered by its
stream operator), then the line `Message: "<what()>"` when the thrown
object carries a message (is a `std::exception`) or `(no message)` when
it does not; nothing precedes these lines in the appended output. -/
theorem run_failure_header_lines (t : Try) (sc : SourceContext)
    (e : CppExc) (args : List Value) :
    ∃ rest : List String,
      (Try.run t sc (Outcome.thrown e) args).1.out =
        t.out ++ ("Test failed: " ++ scShow sc) ::
          (if e.isStd then "Message: \"" ++ e.msg ++ "\""
           else "(no message)") :: rest :=
  ⟨(if args.isEmpty then ["(no arguments)", ""]
    else "Arguments:" :: streamArgs args), run_out_thrown t sc e args⟩

/-- C8 counterexample: with one argument, the failure path does not stop
after the rendered argument line — `detail::streamArgs`'s base case
appends one more blank line, so the output is not the four lines the
claim predicts. -/
theorem run_args_no_extra_line_counterexample :
    (Try.run Try.init ⟨"t.cpp", 3⟩
        (Outcome.thrown ⟨CppType.runtimeError, "m"⟩) [intValue 5]).1.out ≠
      ["Test failed: t.cpp, line 3", "Message: \"m\"", "Arguments:",
        "\"5\" (i)"] := by
  decide

/-- C8 amended: on a failing invocation, after the message line the
output is the literal line `(no arguments)` followed by a blank line
when zero arguments were supplied; with N ≥ 1 arguments it is the line
`Arguments:` followed by exactly N rendered lines in the order supplied,
and then one final blank line. -/
theorem run_failure_args_section (t : Try) (sc : SourceContext)
    (e : CppExc) :
    ((Try.run t sc (Outcome.thrown e) []).1.out =
        t.out ++ ["Test failed: " ++ scShow sc, msgLine e,
          "(no arguments)", ""]) ∧
    ∀ (v : Value) (vs : List Value),
      (Try.run t sc (Outcome.thrown e) (v :: vs)).1.out =
        t.out ++ ["Test failed: " ++ scShow sc, msgLine e, "Arguments:"] ++
          (v :: vs).map stream ++ [""] := by
  constructor
  · simp [run_out_thrown]
  · intro v vs
    simp [run_out_thrown, streamArgs_eq_map]

/-- C6 counterexample: the fallback marker for a non-streamable type in
the source is `[Can't print']` — with a stray apostrophe before the
closing bracket — not the `[Can't print]` the claim states. -/
theorem stream_fallback_marker_counterexample :
    stream (Value.nonStreamable "3Foo") ≠ "[Can't print] (3Foo)" := by
  decide

/-- C6 amended: a streamable value renders as its own textual form in
quotes followed by the parenthesised type name; a non-streamable value
renders as `[Can't print'] (<type name>)` (the source's marker, stray
apostrophe included). -/
theorem stream_rendering (txt ty : String) :
    stream (Value.streamable txt ty) = "\"" ++ txt ++ "\" (" ++ ty ++ ")" ∧
    stream (Value.nonStreamable ty) = "[Can't print'] (" ++ ty ++ ")" :=
  ⟨rfl, rfl⟩

/-- C9: the `nullptr` literal (of type `std::nullptr_t`) renders exactly
as `"nullptr" (nullptr_t)`, through the dedicated overload rather than
the general streamable/non-streamable rule. -/
theorem stream_nullptr :
    stream Value.nullptrVal = "\"nullptr\" (nullptr_t)" := rfl

/-- C4: `Try::equal` returns `true` exactly when the comparison `a == b`
returned `true` without throwing (for `int` operands: exactly when the
operands are equal); on an unequal pair it reports the fixed message
`Arguments are not equal!` with both operands rendered as the logged
arguments and bumps only `mFailCount`; a throwing `==` goes through the
general catch path and is counted as a failed test. -/
theorem equal_spec (t : Try) (sc : SourceContext) (a b : Value) :
    (∀ cmp : CmpResult,
        (Try.equal t sc cmp a b).2 = true ↔ cmp = CmpResult.ok true) ∧
    (∀ x y : Int, (Try.equalInt t sc x y).2 = (x == y)) ∧
    Try.equal t sc (CmpResult.ok true) a b =
      ({ t with succesCount := t.succesCount + 1 }, true) ∧
    ((Try.equal t sc (CmpResult.ok false) a b).2 = false ∧
      (Try.equal t sc (CmpResult.ok false) a b).1.out =
        t.out ++ ["Test failed: " ++ scShow sc,
          "Message: \"Arguments are not equal!\"", "Arguments:",
          stream a, stream b, ""] ∧
      (Try.equal t sc (CmpResult.ok false) a b).1.failCount =
        t.failCount + 1 ∧
      (Try.equal t sc (CmpResult.ok false) a b).1.succesCount =
        t.succesCount) ∧
    ∀ e : CppExc,
      (Try.equal t sc (CmpResult.thrown e) a b).2 = false ∧
      (Try.equal t sc (CmpResult.thrown e) a b).1.failCount =
        t.failCount + 1 ∧
      (Try.equal t sc (CmpResult.thrown e) a b).1.succesCount =
        t.succesCount := by
  refine ⟨?_, ?_, rfl, ⟨rfl, ?_, rfl, rfl⟩, fun e => ⟨rfl, rfl, rfl⟩⟩
  · intro cmp
    cases cmp with
    | ok h => cases h <;> simp [Try.equal, equalBody, Try.run]
    | thrown e => simp [Try.equal, equalBody, Try.run]
  · intro x y
    cases hxy : (x == y) <;>
      simp [Try.equalInt, Try.equal, equalBody, hxy, Try.run]
  · show (Try.run t sc (equalBody (CmpResult.ok false)) [a, b]).1.out = _
    rw [show equalBody (CmpResult.ok false) =
          Outcome.thrown ⟨CppType.runtimeError, "Arguments are not equal!"⟩
        from rfl,
      run_out_thrown]
    rfl

/-- C5 counterexample: `throws<std::exception>` on a body that throws
`std::runtime_error` returns `true`, because `catch (const T&)` also
catches types derived from `T` — yet `std::runtime_error` is not the
expected kind `std::exception` itself, refuting "matches ExpectedKind
exactly". -/
theorem throws_exact_match_counterexample :
    (Try.throws Try.init ⟨"t.cpp", 1⟩ CppType.stdException
        (Outcome.thrown ⟨CppType.runtimeError, "boom"⟩) []).2 = true ∧
    CppType.runtimeError ≠ CppType.stdException := by
  exact ⟨rfl, by decide⟩

/-- C5 amended: `Try::throws` returns `true` exactly when the body throws
an object whose dynamic type is the expected kind or publicly derived
from it (i.e. caught by `catch (const ExpectedKind&)`); when the body
does not throw it fails with message `Test did not throw!`; when it
throws an uncaught `std::exception` it fails with a message
`Test throws a wrong exception (<typeid name>): <what()>`; when it
throws an uncaught non-exception it fails with message
`Test throws a wrong non-exception!`. -/
theorem throws_spec (t : Try) (sc : SourceContext) (expected : CppType)
    (args : List Value) :
    (∀ res : Outcome,
        (Try.throws t sc expected res args).2 =
          (match res with
           | Outcome.normal _ => false
           | Outcome.thrown e => derivesFrom e.ty expected)) ∧
    (∀ r : Int,
        (Try.throws t sc expected (Outcome.normal r) []).1.out =
          t.out ++ ["Test failed: " ++ scShow sc,
            "Message: \"Test did not throw!\"", "(no arguments)", ""]) ∧
    (∀ e : CppExc,
        (Try.throws t sc expected (Outcome.thrown e) []).1.out =
          t.out ++
            (if derivesFrom e.ty expected then []
             else if e.isStd then
               ["Test failed: " ++ scShow sc,
                 "Message: \"" ++ wrongExcMsg e ++ "\"",
                 "(no arguments)", ""]
             else
               ["Test failed: " ++ scShow sc,
                 "Message: \"Test throws a wrong non-exception!\"",
                 "(no arguments)", ""])) := by
  refine ⟨?_, ?_, ?_⟩
  · intro res
    cases res with
    | normal r => rfl
    | thrown e =>
        cases hd : derivesFrom e.ty expected with
        | true => simp [Try.throws, throwsBody, hd, Try.run]
        | false =>
            cases hs : e.isStd with
            | true => simp [Try.throws, throwsBody, hd, hs, Try.run]
            | false => simp [Try.throws, throwsBody, hd, hs, Try.run]
  · intro r
    show (Try.run t sc (throwsBody expected (Outcome.normal r)) []).1.out = _
    rw [show throwsBody expected (Outcome.normal r) =
          Outcome.thrown ⟨CppType.runtimeError, "Test did not throw!"⟩
        from rfl,
      run_out_thrown]
    rfl
  · intro e
    show (Try.run t sc (throwsBody expected (Outcome.thrown e)) []).1.out = _
    cases hd : derivesFrom e.ty expected with
    | true =>
        simp only [throwsBody, hd, if_true]
        simp [Try.run]
    | false =>
        cases hs : e.isStd with
        | true =>
            simp only [throwsBody, hd, hs, Bool.false_eq_true, if_false,
              if_true]
            rw [run_out_thrown]
            rfl
        | false =>
            simp only [throwsBody, hd, hs, Bool.false_eq_true, if_false]
            rw [run_out_thrown]
            rfl
